import Mathlib

/-!
Verification of the invoicing and payment-reconciliation core of the
Techwiz property-management system.

The definitions below are a shallow embedding of the SQL schema, the
PL/pgSQL trigger functions of the Supabase migrations
(`update_invoice_totals`, `update_invoice_status`, `void_invoice_item`,
`void_invoice`, `generate_invoice_number`, `set_invoice_number`) and of the
client-side invoice creation code (`calculateTotals` / `handleSubmit` in
`CreateInvoiceForm.tsx`).  Numeric columns are modelled by `Rat`, tables by
lists of rows, and each trigger by an explicit function on the database
state that is applied after the row mutation that fires it.
-/

set_option maxRecDepth 4000

set_option allowUnsafeReducibility true in
attribute [semireducible] Rat.add Rat.mul Rat.inv

namespace PropertyMgmt

/-- Status of an invoice item: `status IN ('active', 'void')`. -/
inductive ItemStatus where
  | active
  | void
deriving DecidableEq

/-- Invoice status: `status IN ('draft','sent','paid','partially_paid','overdue','cancelled')`. -/
inductive InvoiceStatus where
  | draft
  | sent
  | paid
  | partially_paid
  | overdue
  | cancelled
deriving DecidableEq

/-- Invoice item type: `type IN ('rent','utility','deposit','tax','other')`. -/
inductive ItemType where
  | rent
  | utility
  | deposit
  | tax
  | other
deriving DecidableEq

/-- Status of a billable-item source record (utilities / deposits tables). -/
inductive SourceStatus where
  | pending
  | saved
  | invoiced
deriving DecidableEq

/-- Payment status: the check constraint only admits 'confirmed'. -/
inductive PaymentStatus where
  | confirmed
deriving DecidableEq

/-- A row of the `invoices` table (columns relevant to the core). -/
structure Invoice where
  id : Nat
  owner_id : Nat
  invoice_number : String
  subtotal : Rat
  tax_amount : Rat
  total_amount : Rat
  status : InvoiceStatus
deriving DecidableEq

/-- A row of the `invoice_items` table. -/
structure InvoiceItem where
  id : Nat
  invoice_id : Nat
  type : ItemType
  description : String
  amount : Rat
  reference_id : Option Nat
  status : ItemStatus
deriving DecidableEq

/-- A row of the `payments` table (columns relevant to status recomputation). -/
structure Payment where
  id : Nat
  invoice_id : Option Nat
  amount : Rat
  status : PaymentStatus
deriving DecidableEq

/-- A row of the `utilities` or `deposits` table, as consumed by invoicing. -/
structure SourceRecord where
  id : Nat
  amount : Rat
  status : SourceStatus
deriving DecidableEq

/-- A row of the `taxes` table. -/
structure TaxRecord where
  id : Nat
  name : String
  percentage : Rat
deriving DecidableEq

/-- The database state: the tables touched by the invoicing core, plus the
`invoice_number_seq` sequence. -/
structure DB where
  invoices : List Invoice
  invoice_items : List InvoiceItem
  payments : List Payment
  utilities : List SourceRecord
  deposits : List SourceRecord
  invoice_number_seq : Nat
deriving DecidableEq

/-- The active items of invoice `iid`:
`FROM invoice_items WHERE invoice_id = iid AND status = 'active'`. -/
def activeItems (items : List InvoiceItem) (iid : Nat) : List InvoiceItem :=
  items.filter (fun it => decide (it.invoice_id = iid ∧ it.status = ItemStatus.active))

/-- `COALESCE(SUM(amount), 0)` over the active items of invoice `iid`. -/
def activeSubtotal (items : List InvoiceItem) (iid : Nat) : Rat :=
  ((activeItems items iid).map (fun it => it.amount)).sum

/-- The trigger function `update_invoice_totals` fired `AFTER INSERT OR
UPDATE OR DELETE ON invoice_items FOR EACH ROW`; `iid` is
`COALESCE(NEW.invoice_id, OLD.invoice_id)`.  First `UPDATE` rewrites
`subtotal` from the live active items, the second rewrites
`total_amount = subtotal + tax_amount` using the new subtotal. -/
def update_invoice_totals (db : DB) (iid : Nat) : DB :=
  let sub := activeSubtotal db.invoice_items iid
  let invs1 := db.invoices.map (fun inv =>
    if inv.id = iid then { inv with subtotal := sub } else inv)
  let invs2 := invs1.map (fun inv =>
    if inv.id = iid then { inv with total_amount := inv.subtotal + inv.tax_amount } else inv)
  { db with invoices := invs2 }

/-- `INSERT INTO invoice_items` of a single row, followed by the
`update_invoice_totals_trigger` for that row. -/
def insert_invoice_item (db : DB) (it : InvoiceItem) : DB :=
  update_invoice_totals { db with invoice_items := db.invoice_items ++ [it] } it.invoice_id

/-- `UPDATE invoice_items SET status = st WHERE id = item_id`, followed by
the totals trigger for each updated row (`NEW.invoice_id`). -/
def set_item_status (db : DB) (item_id : Nat) (st : ItemStatus) : DB :=
  let affected := (db.invoice_items.filter (fun it => decide (it.id = item_id))).map
    (fun it => it.invoice_id)
  let items' := db.invoice_items.map (fun it =>
    if it.id = item_id then { it with status := st } else it)
  affected.foldl update_invoice_totals { db with invoice_items := items' }

/-- The SQL function `void_invoice_item(item_id)`:
`UPDATE invoice_items SET status = 'void' WHERE id = item_id` (with the
totals trigger firing on each updated row). -/
def void_invoice_item (db : DB) (item_id : Nat) : DB :=
  set_item_status db item_id ItemStatus.void

/-- `DELETE FROM invoice_items WHERE id = item_id`, followed by the totals
trigger for each deleted row (`OLD.invoice_id`). -/
def delete_invoice_item (db : DB) (item_id : Nat) : DB :=
  let affected := (db.invoice_items.filter (fun it => decide (it.id = item_id))).map
    (fun it => it.invoice_id)
  let items' := db.invoice_items.filter (fun it => decide (¬ it.id = item_id))
  affected.foldl update_invoice_totals { db with invoice_items := items' }

/-- One invoice-item mutation event: insert, active/void status update, or delete. -/
inductive ItemOp where
  | insert (it : InvoiceItem)
  | setStatus (item_id : Nat) (st : ItemStatus)
  | delete (item_id : Nat)

/-- Apply one item mutation (row change plus its trigger). -/
def applyItemOp (db : DB) : ItemOp → DB
  | ItemOp.insert it => insert_invoice_item db it
  | ItemOp.setStatus item_id st => set_item_status db item_id st
  | ItemOp.delete item_id => delete_invoice_item db item_id

/-- Apply a sequence of item mutations. -/
def applyItemOps (db : DB) (ops : List ItemOp) : DB :=
  ops.foldl applyItemOp db

/-- The derived-totals invariant for one invoice row: its `subtotal` is the
sum of the amounts of its active items, and `total_amount = subtotal +
tax_amount`. -/
def totalsOk (items : List InvoiceItem) (inv : Invoice) : Prop :=
  inv.subtotal = activeSubtotal items inv.id ∧
  inv.total_amount = inv.subtotal + inv.tax_amount

instance (items : List InvoiceItem) (inv : Invoice) : Decidable (totalsOk items inv) := by
  unfold totalsOk
  infer_instance

/-- The derived-totals invariant for every invoice row of the database. -/
def TotalsInv (db : DB) : Prop :=
  ∀ inv ∈ db.invoices, totalsOk db.invoice_items inv

instance (db : DB) : Decidable (TotalsInv db) := by
  unfold TotalsInv
  exact List.decidableBAll _ db.invoices

example : activeSubtotal
    [{ id := 1, invoice_id := 1, type := ItemType.rent, description := "r",
       amount := 1000, reference_id := none, status := ItemStatus.active },
     { id := 2, invoice_id := 1, type := ItemType.utility, description := "w",
       amount := 150, reference_id := none, status := ItemStatus.void }] 1 = 1000 := by
  decide

theorem invoice_items_update_invoice_totals (db : DB) (iid : Nat) :
    (update_invoice_totals db iid).invoice_items = db.invoice_items := rfl

theorem mem_invoices_update_invoice_totals {db : DB} {iid : Nat} {inv : Invoice}
    (h : inv ∈ (update_invoice_totals db iid).invoices) :
    (inv.id = iid ∧ totalsOk db.invoice_items inv) ∨ (inv.id ≠ iid ∧ inv ∈ db.invoices) := by
  unfold update_invoice_totals at h
  simp only [List.map_map, List.mem_map, Function.comp] at h
  obtain ⟨a, ha, rfl⟩ := h
  by_cases hid : a.id = iid
  · left
    simp only [hid, if_pos]
    exact ⟨trivial, rfl, rfl⟩
  · right
    simp only [hid, if_neg, not_false_iff]
    exact ⟨hid, ha⟩

theorem invoice_items_foldl_update (L : List Nat) (db : DB) :
    (L.foldl update_invoice_totals db).invoice_items = db.invoice_items := by
  induction L generalizing db with
  | nil => rfl
  | cons j rest ih =>
    simpa [List.foldl_cons, invoice_items_update_invoice_totals] using ih (update_invoice_totals db j)

theorem foldl_update_invoice_totals_ok {L : List Nat} {db : DB}
    (h : ∀ inv ∈ db.invoices, inv.id ∉ L → totalsOk db.invoice_items inv) :
    ∀ inv ∈ (L.foldl update_invoice_totals db).invoices,
      totalsOk (L.foldl update_invoice_totals db).invoice_items inv := by
  induction L generalizing db with
  | nil =>
    intro inv hm
    exact h inv hm (by simp)
  | cons j rest ih =>
    intro inv hm
    simp only [List.foldl_cons] at hm ⊢
    refine ih ?_ inv hm
    intro inv' hmem hnot
    rw [invoice_items_update_invoice_totals]
    rcases mem_invoices_update_invoice_totals hmem with ⟨_, hok⟩ | ⟨hne, hold⟩
    · exact hok
    · exact h inv' hold (by simp [List.mem_cons, hne, hnot])

theorem activeItems_cons {a : InvoiceItem} {l : List InvoiceItem} {k : Nat} :
    activeItems (a :: l) k =
      if a.invoice_id = k ∧ a.status = ItemStatus.active then a :: activeItems l k
      else activeItems l k := by
  simp only [activeItems, List.filter_cons]
  by_cases hp : a.invoice_id = k ∧ a.status = ItemStatus.active
  · simp [hp]
  · simp [hp]

theorem activeSubtotal_append_other {items : List InvoiceItem} {it : InvoiceItem} {k : Nat}
    (h : it.invoice_id ≠ k) :
    activeSubtotal (items ++ [it]) k = activeSubtotal items k := by
  simp [activeSubtotal, activeItems, List.filter_append, h]

theorem activeItems_map_setStatus {items : List InvoiceItem} {item_id k : Nat} {st : ItemStatus}
    (h : ∀ it ∈ items, it.id = item_id → it.invoice_id ≠ k) :
    activeItems (items.map (fun it =>
      if it.id = item_id then { it with status := st } else it)) k = activeItems items k := by
  induction items with
  | nil => rfl
  | cons a l ih =>
    have ha := h a (by simp)
    have hl : ∀ it ∈ l, it.id = item_id → it.invoice_id ≠ k :=
      fun it hm => h it (List.mem_cons_of_mem _ hm)
    simp only [List.map_cons]
    by_cases hid : a.id = item_id
    · have hik : a.invoice_id ≠ k := ha hid
      rw [if_pos hid, activeItems_cons, activeItems_cons]
      have h1 : ¬ (a.invoice_id = k ∧ a.status = ItemStatus.active) := fun hc => hik hc.1
      have h2 : ¬ (({ a with status := st } : InvoiceItem).invoice_id = k ∧
          ({ a with status := st } : InvoiceItem).status = ItemStatus.active) :=
        fun hc => hik hc.1
      rw [if_neg h2, if_neg h1]
      exact ih hl
    · rw [if_neg hid, activeItems_cons, activeItems_cons]
      by_cases hp : a.invoice_id = k ∧ a.status = ItemStatus.active
      · rw [if_pos hp, if_pos hp, ih hl]
      · rw [if_neg hp, if_neg hp]
        exact ih hl

theorem activeItems_filter_ne {items : List InvoiceItem} {item_id k : Nat}
    (h : ∀ it ∈ items, it.id = item_id → it.invoice_id ≠ k) :
    activeItems (items.filter (fun it => decide (¬ it.id = item_id))) k = activeItems items k := by
  induction items with
  | nil => rfl
  | cons a l ih =>
    have ha := h a (by simp)
    have hl : ∀ it ∈ l, it.id = item_id → it.invoice_id ≠ k :=
      fun it hm => h it (List.mem_cons_of_mem _ hm)
    simp only [List.filter_cons]
    by_cases hid : a.id = item_id
    · have hik : a.invoice_id ≠ k := ha hid
      have h1 : ¬ (a.invoice_id = k ∧ a.status = ItemStatus.active) := fun hc => hik hc.1
      have hcond : (decide (¬ a.id = item_id)) = false := by simp [hid]
      rw [hcond]
      simp only [Bool.false_eq_true, if_false]
      rw [activeItems_cons, if_neg h1]
      exact ih hl
    · have hcond : (decide (¬ a.id = item_id)) = true := by simp [hid]
      rw [hcond]
      simp only [if_true]
      rw [activeItems_cons, activeItems_cons]
      by_cases hp : a.invoice_id = k ∧ a.status = ItemStatus.active
      · rw [if_pos hp, if_pos hp, ih hl]
      · rw [if_neg hp, if_neg hp]
        exact ih hl

theorem not_mem_affected {items : List InvoiceItem} {item_id k : Nat}
    (h : k ∉ (items.filter (fun it => decide (it.id = item_id))).map (fun it => it.invoice_id)) :
    ∀ it ∈ items, it.id = item_id → it.invoice_id ≠ k := by
  intro it hm hid hk
  exact h (List.mem_map.mpr ⟨it, List.mem_filter.mpr ⟨hm, by simp [hid]⟩, hk⟩)

theorem TotalsInv_insert {db : DB} (h : TotalsInv db) (it : InvoiceItem) :
    TotalsInv (insert_invoice_item db it) := by
  intro inv hm
  unfold insert_invoice_item at hm ⊢
  rw [invoice_items_update_invoice_totals]
  rcases mem_invoices_update_invoice_totals hm with ⟨_, hok⟩ | ⟨hne, hold⟩
  · exact hok
  · obtain ⟨h1, h2⟩ := h inv hold
    refine ⟨?_, h2⟩
    rw [h1]
    exact (activeSubtotal_append_other (fun hc => hne hc.symm)).symm

theorem TotalsInv_setStatus {db : DB} (h : TotalsInv db) (item_id : Nat) (st : ItemStatus) :
    TotalsInv (set_item_status db item_id st) := by
  unfold set_item_status TotalsInv
  refine foldl_update_invoice_totals_ok ?_
  intro inv hmem hnot
  obtain ⟨h1, h2⟩ := h inv hmem
  refine ⟨?_, h2⟩
  rw [h1]
  unfold activeSubtotal
  rw [activeItems_map_setStatus (not_mem_affected hnot)]

theorem TotalsInv_delete {db : DB} (h : TotalsInv db) (item_id : Nat) :
    TotalsInv (delete_invoice_item db item_id) := by
  unfold delete_invoice_item TotalsInv
  refine foldl_update_invoice_totals_ok ?_
  intro inv hmem hnot
  obtain ⟨h1, h2⟩ := h inv hmem
  refine ⟨?_, h2⟩
  rw [h1]
  unfold activeSubtotal
  rw [activeItems_filter_ne (not_mem_affected hnot)]

theorem TotalsInv_applyItemOp {db : DB} (h : TotalsInv db) (op : ItemOp) :
    TotalsInv (applyItemOp db op) := by
  cases op with
  | insert it => exact TotalsInv_insert h it
  | setStatus item_id st => exact TotalsInv_setStatus h item_id st
  | delete item_id => exact TotalsInv_delete h item_id

theorem TotalsInv_applyItemOps {db : DB} (h : TotalsInv db) (ops : List ItemOp) :
    TotalsInv (applyItemOps db ops) := by
  induction ops generalizing db with
  | nil => exact h
  | cons op rest ih => exact ih (TotalsInv_applyItemOp h op)

/-- Test fixture: a rent line item of invoice 1. -/
def itemRent : InvoiceItem :=
  { id := 10, invoice_id := 1, type := ItemType.rent, description := "Monthly Rent",
    amount := 1000, reference_id := none, status := ItemStatus.active }

/-- Test fixture: a water utility line item of invoice 1, sourced from utility record 7. -/
def itemWater : InvoiceItem :=
  { id := 11, invoice_id := 1, type := ItemType.utility, description := "Water - 2/2025",
    amount := 150, reference_id := some 7, status := ItemStatus.active }

/-- Test fixture: invoice 1 with 16% tax applied over a 1150 subtotal. -/
def invoice1 : Invoice :=
  { id := 1, owner_id := 5, invoice_number := "INV-20250223-0001", subtotal := 1150,
    tax_amount := 184, total_amount := 1334, status := InvoiceStatus.draft }

/-- Test fixture: a database holding invoice 1 and its two items. -/
def db1 : DB :=
  { invoices := [invoice1], invoice_items := [itemRent, itemWater], payments := [],
    utilities := [{ id := 7, amount := 150, status := SourceStatus.invoiced }],
    deposits := [], invoice_number_seq := 1 }

/-- C1: for every invoice, after any sequence of invoice-item inserts, active/void
status updates, and deletes (each followed by the `update_invoice_totals` trigger),
the invoice's `subtotal` equals the sum of the amounts of its items whose status is
'active', and its `total_amount` equals `subtotal + tax_amount`; the invariant is
preserved from any state in which it holds. -/
theorem C1_totals_invariant_preserved (db : DB) (ops : List ItemOp) (h : TotalsInv db) :
    ∀ inv ∈ (applyItemOps db ops).invoices,
      inv.subtotal = activeSubtotal (applyItemOps db ops).invoice_items inv.id ∧
      inv.total_amount = inv.subtotal + inv.tax_amount :=
  TotalsInv_applyItemOps h ops

/-- Witness for C1: the invariant holds of the concrete fixture database and is
preserved across a void, a delete and an insert. -/
theorem C1_totals_invariant_preserved_witness :
    TotalsInv db1 ∧
    ∀ inv ∈ (applyItemOps db1 [ItemOp.setStatus 11 ItemStatus.void, ItemOp.delete 10,
        ItemOp.insert itemRent]).invoices,
      inv.subtotal = activeSubtotal (applyItemOps db1 [ItemOp.setStatus 11 ItemStatus.void,
        ItemOp.delete 10, ItemOp.insert itemRent]).invoice_items inv.id ∧
      inv.total_amount = inv.subtotal + inv.tax_amount :=
  ⟨by decide, C1_totals_invariant_preserved db1 _ (by decide)⟩

/-- `COALESCE(SUM(amount), 0)` over the confirmed payments against invoice `iid`:
`FROM payments WHERE invoice_id = iid AND status = 'confirmed'`. -/
def confirmedPaid (payments : List Payment) (iid : Nat) : Rat :=
  ((payments.filter (fun p =>
    decide (p.invoice_id = some iid ∧ p.status = PaymentStatus.confirmed))).map
      (fun p => p.amount)).sum

/-- `UPDATE invoices SET status = st WHERE id = iid`. -/
def set_invoice_row_status (invs : List Invoice) (iid : Nat) (st : InvoiceStatus) :
    List Invoice :=
  invs.map (fun inv => if inv.id = iid then { inv with status := st } else inv)

/-- The trigger function `update_invoice_status` fired `AFTER INSERT OR UPDATE OF
amount, status ON payments FOR EACH ROW`: when the payment row references an
invoice, fetch its `total_amount`, sum the confirmed payments against it, and set
the invoice status to 'paid' when `total_paid >= total_amount`, to
'partially_paid' when `0 < total_paid < total_amount`, and otherwise leave it
unchanged. -/
def update_invoice_status (db : DB) (p : Payment) : DB :=
  match p.invoice_id with
  | none => db
  | some iid =>
    match db.invoices.find? (fun inv => decide (inv.id = iid)) with
    | none => db
    | some inv =>
      let total_paid := confirmedPaid db.payments iid
      if total_paid ≥ inv.total_amount then
        { db with invoices := set_invoice_row_status db.invoices iid InvoiceStatus.paid }
      else if total_paid > 0 then
        { db with invoices := set_invoice_row_status db.invoices iid InvoiceStatus.partially_paid }
      else db

/-- `INSERT INTO payments` of a single row, followed by the
`update_invoice_status_trigger` for that row. -/
def insert_payment (db : DB) (p : Payment) : DB :=
  update_invoice_status { db with payments := db.payments ++ [p] } p

theorem mem_set_invoice_row_status {invs : List Invoice} {iid : Nat} {st : InvoiceStatus} :
    ∀ inv' ∈ set_invoice_row_status invs iid st,
      (inv'.id = iid → inv'.status = st) ∧ (inv'.id ≠ iid → inv' ∈ invs) := by
  intro inv' hm
  unfold set_invoice_row_status at hm
  rw [List.mem_map] at hm
  obtain ⟨a, ha, rfl⟩ := hm
  by_cases h : a.id = iid
  · rw [if_pos h]
    exact ⟨fun _ => rfl, fun hne => (hne h).elim⟩
  · rw [if_neg h]
    exact ⟨fun he => (h he).elim, fun _ => ha⟩

theorem insert_payment_unattached {db : DB} {p : Payment} (h : p.invoice_id = none) :
    insert_payment db p = { db with payments := db.payments ++ [p] } := by
  unfold insert_payment update_invoice_status
  rw [h]

theorem insert_payment_paid {db : DB} {p : Payment} {iid : Nat} {inv : Invoice}
    (hp : p.invoice_id = some iid)
    (hfind : db.invoices.find? (fun i => decide (i.id = iid)) = some inv)
    (hsum : confirmedPaid (db.payments ++ [p]) iid ≥ inv.total_amount) :
    (insert_payment db p).invoices =
      set_invoice_row_status db.invoices iid InvoiceStatus.paid := by
  unfold insert_payment update_invoice_status
  simp only [hp, hfind]
  rw [if_pos hsum]

theorem insert_payment_partpaid {db : DB} {p : Payment} {iid : Nat} {inv : Invoice}
    (hp : p.invoice_id = some iid)
    (hfind : db.invoices.find? (fun i => decide (i.id = iid)) = some inv)
    (hpos : 0 < confirmedPaid (db.payments ++ [p]) iid)
    (hlt : confirmedPaid (db.payments ++ [p]) iid < inv.total_amount) :
    (insert_payment db p).invoices =
      set_invoice_row_status db.invoices iid InvoiceStatus.partially_paid := by
  unfold insert_payment update_invoice_status
  simp only [hp, hfind]
  rw [if_neg (not_le.mpr hlt), if_pos hpos]

theorem insert_payment_zero {db : DB} {p : Payment} {iid : Nat} {inv : Invoice}
    (hp : p.invoice_id = some iid)
    (hfind : db.invoices.find? (fun i => decide (i.id = iid)) = some inv)
    (hz : confirmedPaid (db.payments ++ [p]) iid = 0)
    (hlt : confirmedPaid (db.payments ++ [p]) iid < inv.total_amount) :
    (insert_payment db p).invoices = db.invoices := by
  unfold insert_payment update_invoice_status
  simp only [hp, hfind]
  rw [if_neg (not_le.mpr hlt), if_neg (by rw [hz]; exact lt_irrefl 0)]

/-- Test fixture: invoice 2, untaxed, total 1000, already sent. -/
def invoiceOver : Invoice :=
  { id := 2, owner_id := 5, invoice_number := "INV-20250223-0002", subtotal := 1000,
    tax_amount := 0, total_amount := 1000, status := InvoiceStatus.sent }

/-- Test fixture: a database holding only invoice 2 with no payments yet. -/
def dbOver : DB :=
  { invoices := [invoiceOver], invoice_items := [], payments := [], utilities := [],
    deposits := [], invoice_number_seq := 2 }

/-- Test fixture: a confirmed payment of 600 against invoice 2. -/
def pay600 : Payment :=
  { id := 20, invoice_id := some 2, amount := 600, status := PaymentStatus.confirmed }

/-- Test fixture: a confirmed payment of 500 against invoice 2. -/
def pay500 : Payment :=
  { id := 21, invoice_id := some 2, amount := 500, status := PaymentStatus.confirmed }

/-- Test fixture: a confirmed payment of 400 against invoice 2. -/
def pay400 : Payment :=
  { id := 22, invoice_id := some 2, amount := 400, status := PaymentStatus.confirmed }

/-- C2: on every payment insert, if the payment has no `invoice_id` no invoice is
changed; otherwise, with `total_paid` the sum of all confirmed payments against
the invoice, `total_paid ≥ total_amount` sets the invoice status to 'paid',
`0 < total_paid < total_amount` sets it to 'partially_paid', and `total_paid = 0`
(with the invoice not yet covered) leaves every invoice row unchanged; in
particular the overpayment 600 + 500 against a total of 1000 is accepted without
error and yields status 'paid'. -/
theorem C2_payment_application (db : DB) (p : Payment) (iid : Nat) (inv : Invoice)
    (hp : p.invoice_id = some iid)
    (hfind : db.invoices.find? (fun i => decide (i.id = iid)) = some inv) :
    (confirmedPaid (db.payments ++ [p]) iid ≥ inv.total_amount →
      ∀ inv' ∈ (insert_payment db p).invoices,
        (inv'.id = iid → inv'.status = InvoiceStatus.paid) ∧
        (inv'.id ≠ iid → inv' ∈ db.invoices)) ∧
    (0 < confirmedPaid (db.payments ++ [p]) iid →
      confirmedPaid (db.payments ++ [p]) iid < inv.total_amount →
      ∀ inv' ∈ (insert_payment db p).invoices,
        (inv'.id = iid → inv'.status = InvoiceStatus.partially_paid) ∧
        (inv'.id ≠ iid → inv' ∈ db.invoices)) ∧
    (confirmedPaid (db.payments ++ [p]) iid = 0 →
      confirmedPaid (db.payments ++ [p]) iid < inv.total_amount →
      (insert_payment db p).invoices = db.invoices) ∧
    (∀ q : Payment, q.invoice_id = none →
      insert_payment db q = { db with payments := db.payments ++ [q] }) ∧
    (insert_payment dbOver pay600).invoices =
      [{ invoiceOver with status := InvoiceStatus.partially_paid }] ∧
    (insert_payment (insert_payment dbOver pay600) pay500).invoices =
      [{ invoiceOver with status := InvoiceStatus.paid }] ∧
    (insert_payment (insert_payment dbOver pay600) pay500).payments = [pay600, pay500] := by
  refine ⟨?_, ?_, ?_, ?_, by decide, by decide, by decide⟩
  · intro hsum inv' hm
    rw [insert_payment_paid hp hfind hsum] at hm
    exact mem_set_invoice_row_status inv' hm
  · intro hpos hlt inv' hm
    rw [insert_payment_partpaid hp hfind hpos hlt] at hm
    exact mem_set_invoice_row_status inv' hm
  · intro hz hlt
    exact insert_payment_zero hp hfind hz hlt
  · intro q hq
    exact insert_payment_unattached hq

/-- Witness for C2: a confirmed payment of 400 against invoice 2 (total 1000)
drives its status to 'partially_paid'. -/
theorem C2_payment_application_witness :
    (0:Rat) < confirmedPaid (dbOver.payments ++ [pay400]) 2 ∧
    confirmedPaid (dbOver.payments ++ [pay400]) 2 < invoiceOver.total_amount ∧
    ∀ inv' ∈ (insert_payment dbOver pay400).invoices,
      (inv'.id = 2 → inv'.status = InvoiceStatus.partially_paid) ∧
      (inv'.id ≠ 2 → inv' ∈ dbOver.invoices) := by
  refine ⟨by decide, by decide, ?_⟩
  exact (C2_payment_application dbOver pay400 2 invoiceOver (by decide)
    (by decide)).2.1 (by decide) (by decide)

/-- Test fixture: invoice 3, cancelled with zeroed totals. -/
def invoiceCancelled : Invoice :=
  { id := 3, owner_id := 5, invoice_number := "INV-20250223-0003", subtotal := 0,
    tax_amount := 0, total_amount := 0, status := InvoiceStatus.cancelled }

/-- Test fixture: a database holding only the cancelled invoice 3. -/
def dbCancelled : DB :=
  { invoices := [invoiceCancelled], invoice_items := [], payments := [], utilities := [],
    deposits := [], invoice_number_seq := 3 }

/-- Test fixture: a confirmed payment of 50 recorded against the cancelled invoice 3. -/
def payAfterCancel : Payment :=
  { id := 30, invoice_id := some 3, amount := 50, status := PaymentStatus.confirmed }

/-- C6 counterexample: 'cancelled' is not terminal — inserting a confirmed payment
against a cancelled invoice runs the status trigger, whose sum comparison
(`total_paid ≥ total_amount`, with `total_amount = 0`) overwrites the status with
'paid', so a subsequent payment application does mutate a cancelled invoice. -/
theorem C6_counterexample :
    invoiceCancelled.status = InvoiceStatus.cancelled ∧
    (insert_payment dbCancelled payAfterCancel).invoices =
      [{ invoiceCancelled with status := InvoiceStatus.paid }] ∧
    ¬ InvoiceStatus.paid = InvoiceStatus.cancelled := by
  decide

/-- C6 amended: a cancelled invoice is not terminal — the payment-status trigger
has no guard on cancelled invoices, so inserting a confirmed payment whose
cumulative confirmed total reaches `total_amount` overwrites the cancelled
status with 'paid'. -/
theorem C6_cancelled_not_terminal (db : DB) (p : Payment) (iid : Nat) (inv : Invoice)
    (hp : p.invoice_id = some iid)
    (hfind : db.invoices.find? (fun i => decide (i.id = iid)) = some inv)
    (hcancelled : inv.status = InvoiceStatus.cancelled)
    (hsum : confirmedPaid (db.payments ++ [p]) iid ≥ inv.total_amount) :
    ∀ inv' ∈ (insert_payment db p).invoices, inv'.id = iid →
      inv'.status = InvoiceStatus.paid := by
  intro inv' hm hdi
  rw [insert_payment_paid hp hfind hsum] at hm
  exact (mem_set_invoice_row_status inv' hm).1 hdi

/-- Witness for C6 at the concrete cancelled invoice 3 and payment of 50. -/
theorem C6_cancelled_not_terminal_witness :
    invoiceCancelled.status = InvoiceStatus.cancelled ∧
    confirmedPaid (dbCancelled.payments ++ [payAfterCancel]) 3 ≥ invoiceCancelled.total_amount ∧
    ∀ inv' ∈ (insert_payment dbCancelled payAfterCancel).invoices, inv'.id = 3 →
      inv'.status = InvoiceStatus.paid := by
  refine ⟨by decide, by decide, ?_⟩
  exact C6_cancelled_not_terminal dbCancelled payAfterCancel 3 invoiceCancelled
    (by decide) (by decide) (by decide) (by decide)

theorem foldl_update_invoice_totals_mem {L : List Nat} {db : DB} {iid : Nat}
    (hin : iid ∈ L ∨ ∀ inv ∈ db.invoices, inv.id = iid → totalsOk db.invoice_items inv) :
    ∀ inv ∈ (L.foldl update_invoice_totals db).invoices, inv.id = iid →
      totalsOk db.invoice_items inv := by
  induction L generalizing db with
  | nil =>
    intro inv hm hid
    rcases hin with h | h
    · exact absurd h (List.not_mem_nil iid)
    · exact h inv hm hid
  | cons j rest ih =>
    intro inv hm hid
    simp only [List.foldl_cons] at hm
    have hnext : iid ∈ rest ∨ ∀ inv' ∈ (update_invoice_totals db j).invoices,
        inv'.id = iid → totalsOk (update_invoice_totals db j).invoice_items inv' := by
      rcases hin with hmem | hok
      · rcases List.mem_cons.mp hmem with hj | hr
        · right
          intro inv' hm' hid'
          rw [invoice_items_update_invoice_totals]
          rcases mem_invoices_update_invoice_totals hm' with ⟨_, hok'⟩ | ⟨hne, _⟩
          · exact hok'
          · exact absurd (hid'.trans hj) hne
        · left
          exact hr
      · right
        intro inv' hm' hid'
        rw [invoice_items_update_invoice_totals]
        rcases mem_invoices_update_invoice_totals hm' with ⟨_, hok'⟩ | ⟨_, hold⟩
        · exact hok'
        · exact hok inv' hold hid'
    have hres := ih hnext inv hm hid
    rwa [invoice_items_update_invoice_totals] at hres

theorem mem_affected {items : List InvoiceItem} {item_id : Nat} {x : InvoiceItem}
    (hx : x ∈ items) (hid : x.id = item_id) :
    x.invoice_id ∈
      (items.filter (fun it => decide (it.id = item_id))).map (fun it => it.invoice_id) :=
  List.mem_map.mpr ⟨x, List.mem_filter.mpr ⟨hx, by simp [hid]⟩, rfl⟩

theorem activeItems_eq_nil (items : List InvoiceItem) (iid : Nat)
    (h : ∀ it ∈ items, ¬ (it.invoice_id = iid ∧ it.status = ItemStatus.active)) :
    activeItems items iid = [] := by
  unfold activeItems
  rw [List.filter_eq_nil_iff]
  intro a ha
  simp [h a ha]

/-- Test fixture: a single active 1150 line item of invoice 4. -/
def itemOnly : InvoiceItem :=
  { id := 40, invoice_id := 4, type := ItemType.rent, description := "Monthly Rent",
    amount := 1150, reference_id := none, status := ItemStatus.active }

/-- Test fixture: invoice 4 with 16% tax (184) over a 1150 subtotal. -/
def invoiceTaxed : Invoice :=
  { id := 4, owner_id := 5, invoice_number := "INV-20250223-0004", subtotal := 1150,
    tax_amount := 184, total_amount := 1334, status := InvoiceStatus.draft }

/-- Test fixture: a database holding invoice 4 and its single active item. -/
def dbTaxed : DB :=
  { invoices := [invoiceTaxed], invoice_items := [itemOnly], payments := [],
    utilities := [], deposits := [], invoice_number_seq := 4 }

/-- C7 counterexample: deleting the last remaining active item of a taxed invoice
leaves `subtotal = 0` but `total_amount = tax_amount = 184`, not 0 — the totals
trigger recomputes `total_amount = subtotal + tax_amount` and never zeroes the
stale `tax_amount`. -/
theorem C7_counterexample :
    (delete_invoice_item dbTaxed 40).invoices =
      [{ invoiceTaxed with subtotal := 0, total_amount := 184 }] ∧
    ¬ (184 : Rat) = 0 := by
  decide

/-- C7 amended: deleting the last remaining active invoice item leaves the
invoice's `subtotal` at exactly 0 (not null, thanks to `COALESCE`) and its
`total_amount` equal to its unchanged `tax_amount`; both are 0 exactly when
`tax_amount` is 0. -/
theorem C7_delete_last_active_item (db : DB) (item_id iid : Nat) (x : InvoiceItem)
    (hx : x ∈ db.invoice_items) (hxid : x.id = item_id) (hxinv : x.invoice_id = iid)
    (hlast : ∀ it ∈ db.invoice_items,
      it.invoice_id = iid → it.status = ItemStatus.active → it.id = item_id) :
    ∀ inv ∈ (delete_invoice_item db item_id).invoices, inv.id = iid →
      inv.subtotal = 0 ∧ inv.total_amount = inv.tax_amount := by
  intro inv hm hid
  unfold delete_invoice_item at hm
  have haff : iid ∈ (db.invoice_items.filter
      (fun it => decide (it.id = item_id))).map (fun it => it.invoice_id) :=
    hxinv ▸ mem_affected hx hxid
  have hok := foldl_update_invoice_totals_mem (Or.inl haff) inv hm hid
  obtain ⟨h1, h2⟩ := hok
  have hnil : activeItems (db.invoice_items.filter
      (fun it => decide (¬ it.id = item_id))) iid = [] := by
    refine activeItems_eq_nil _ _ ?_
    intro it hit hc
    obtain ⟨hmem, hkeep⟩ := List.mem_filter.mp hit
    have : it.id = item_id := hlast it hmem hc.1 hc.2
    simp [this] at hkeep
  have hzero : activeSubtotal (db.invoice_items.filter
      (fun it => decide (¬ it.id = item_id))) iid = 0 := by
    unfold activeSubtotal
    rw [hnil]
    rfl
  have hsub : inv.subtotal = 0 := by
    rw [h1, hid]
    exact hzero
  exact ⟨hsub, by rw [h2, hsub, zero_add]⟩

/-- Witness for C7 at the concrete one-item taxed invoice. -/
theorem C7_delete_last_active_item_witness :
    itemOnly ∈ dbTaxed.invoice_items ∧
    (∀ it ∈ dbTaxed.invoice_items,
      it.invoice_id = 4 → it.status = ItemStatus.active → it.id = 40) ∧
    ∀ inv ∈ (delete_invoice_item dbTaxed 40).invoices, inv.id = 4 →
      inv.subtotal = 0 ∧ inv.total_amount = inv.tax_amount := by
  refine ⟨by decide, by decide, ?_⟩
  exact C7_delete_last_active_item dbTaxed 40 4 itemOnly (by decide) (by decide)
    (by decide) (by decide)

instance exceptDecEq {ε α : Type} [DecidableEq ε] [DecidableEq α] :
    DecidableEq (Except ε α)
  | Except.error e, Except.error f =>
    if h : e = f then isTrue (by rw [h]) else
      isFalse (by intro hc; cases hc; exact h rfl)
  | Except.error _, Except.ok _ => isFalse (by intro hc; cases hc)
  | Except.ok _, Except.error _ => isFalse (by intro hc; cases hc)
  | Except.ok a, Except.ok b =>
    if h : a = b then isTrue (by rw [h]) else
      isFalse (by intro hc; cases hc; exact h rfl)

/-- Column names of the `invoice_items` table, from its `CREATE TABLE` statement. -/
def invoiceItemsColumns : List String :=
  ["id", "invoice_id", "type", "description", "amount", "reference_id", "status",
   "created_at"]

/-- Parameter names of the SQL function `void_invoice(invoice_id uuid)`. -/
def voidInvoiceParams : List String :=
  ["invoice_id"]

/-- PL/pgSQL name resolution under the default `plpgsql.variable_conflict = error`
setting: an unqualified identifier inside an embedded SQL statement that names
both an in-scope PL/pgSQL variable (here, a function parameter) and a column of a
table used by the statement is ambiguous, and executing the statement raises
`column reference ... is ambiguous`. -/
def plpgsqlAmbiguous (vars cols : List String) (ref : String) : Bool :=
  vars.contains ref && cols.contains ref

/-- The relational effect of void_invoice's first statement,
`UPDATE invoice_items SET status = 'void' WHERE invoice_id = $1`, with the
totals trigger firing per updated row. -/
def void_invoice_void_items (db : DB) (iid : Nat) : DB :=
  let affected := (db.invoice_items.filter (fun it => decide (it.invoice_id = iid))).map
    (fun it => it.invoice_id)
  let items' := db.invoice_items.map (fun it =>
    if it.invoice_id = iid then { it with status := ItemStatus.void } else it)
  affected.foldl update_invoice_totals { db with invoice_items := items' }

/-- The relational effect of void_invoice's second statement, `UPDATE invoices
SET status = 'cancelled', subtotal = 0, tax_amount = 0, total_amount = 0
WHERE id = $1`. -/
def void_invoice_cancel_row (db : DB) (iid : Nat) : DB :=
  { db with invoices := db.invoices.map (fun inv =>
      if inv.id = iid then
        { inv with
          status := InvoiceStatus.cancelled
          subtotal := 0
          tax_amount := 0
          total_amount := 0 }
      else inv) }

/-- The SQL function `void_invoice(invoice_id uuid)`.  Its first statement reads
`WHERE invoice_id = $1` against `invoice_items`: the unqualified `invoice_id`
names both the function parameter and the `invoice_items.invoice_id` column, so
under PL/pgSQL's default name resolution the call raises the ambiguous-column
error, the enclosing transaction aborts, and neither UPDATE takes effect.  The
intended relational effect of the two statements is the (unreached) ok branch. -/
def void_invoice (db : DB) (iid : Nat) : Except String DB :=
  if plpgsqlAmbiguous voidInvoiceParams invoiceItemsColumns "invoice_id" then
    Except.error "column reference invoice_id is ambiguous"
  else
    Except.ok (void_invoice_cancel_row (void_invoice_void_items db iid) iid)

/-- The intended relational effect of void_invoice's two UPDATE statements (were
the WHERE clause not ambiguous) does match the claim: every item of the invoice
ends 'void' and the invoice row is forced to cancelled with zeroed totals. -/
theorem void_invoice_intended_effect (db : DB) (iid : Nat) :
    (∀ it ∈ (void_invoice_cancel_row (void_invoice_void_items db iid) iid).invoice_items,
      it.invoice_id = iid → it.status = ItemStatus.void) ∧
    ∀ inv ∈ (void_invoice_cancel_row (void_invoice_void_items db iid) iid).invoices,
      inv.id = iid → inv.status = InvoiceStatus.cancelled ∧ inv.subtotal = 0 ∧
        inv.tax_amount = 0 ∧ inv.total_amount = 0 := by
  constructor
  · intro it hm hinv
    have hm' : it ∈ (void_invoice_void_items db iid).invoice_items := hm
    unfold void_invoice_void_items at hm'
    rw [invoice_items_foldl_update] at hm'
    rw [List.mem_map] at hm'
    obtain ⟨a, _, rfl⟩ := hm'
    by_cases h : a.invoice_id = iid
    · rw [if_pos h]
    · rw [if_neg h] at hinv ⊢
      exact absurd hinv h
  · intro inv hm hid
    unfold void_invoice_cancel_row at hm
    rw [List.mem_map] at hm
    obtain ⟨a, _, rfl⟩ := hm
    by_cases h : a.id = iid
    · rw [if_pos h]
      exact ⟨rfl, rfl, rfl, rfl⟩
    · rw [if_neg h] at hid ⊢
      exact absurd hid h

/-- C5: calling `void_invoice` on any database state and invoice id aborts with
PL/pgSQL's ambiguous-column error — the function parameter `invoice_id` collides
with the `invoice_items.invoice_id` column in the first UPDATE's WHERE clause —
so no item is voided and the invoice is never cancelled or zeroed. -/
theorem C5_void_invoice_aborts (db : DB) (iid : Nat) :
    void_invoice db iid = Except.error "column reference invoice_id is ambiguous" := by
  unfold void_invoice
  rw [if_pos]
  decide

/-- C9: voiding one item of two rewrites only `subtotal` and `total_amount` — the
new subtotal plus the voided item's amount equals the old subtotal and
`tax_amount` is unchanged — while voiding the whole invoice, which the claim says
always zeroes `tax_amount`, instead aborts with the ambiguous-column error and so
leaves `tax_amount` untouched. -/
theorem C9_item_void_frame :
    (void_invoice_item db1 11).invoices =
      [{ invoice1 with subtotal := 1000, total_amount := 1184 }] ∧
    (1000 : Rat) + itemWater.amount = invoice1.subtotal ∧
    ({ invoice1 with subtotal := 1000, total_amount := 1184 }).tax_amount =
      invoice1.tax_amount ∧
    void_invoice db1 1 = Except.error "column reference invoice_id is ambiguous" := by
  decide

/-- Postgres `lpad(s, len, pad)`: pads `s` on the left with `pad` up to `len`
characters; if `s` is already longer than `len` it is truncated on the right
(keeping the first `len` characters). -/
def lpad (s : String) (len : Nat) (pad : Char) : String :=
  if len ≤ s.length then (s.toList.take len).asString
  else ((List.replicate (len - s.length) pad) ++ s.toList).asString

/-- The SQL function `generate_invoice_number()`: draws
`nextval('invoice_number_seq')` and formats
`'INV-' || to_char(now(), 'YYYYMMDD') || '-' || lpad(next_val::text, 4, '0')`. -/
def generate_invoice_number (dateStr : String) (next_val : Nat) : String :=
  "INV-" ++ dateStr ++ "-" ++ lpad (Nat.repr next_val) 4 '0'

/-- The `BEFORE INSERT` trigger `set_invoice_number` (the client never supplies an
invoice number, so the trigger always assigns `generate_invoice_number()`,
drawing `nextval('invoice_number_seq')`), followed by the `INSERT INTO invoices`
row insert checked against the UNIQUE constraint on `invoice_number`.  `nextval`
is non-transactional, so the sequence advances even when the insert then fails
(aborted creations leave gaps, numbers are never re-issued). -/
def create_invoice_row (db : DB) (dateStr : String) (inv : Invoice) : DB × Option Invoice :=
  let n := db.invoice_number_seq + 1
  let inv' := { inv with invoice_number := generate_invoice_number dateStr n }
  let db1 := { db with invoice_number_seq := n }
  if db1.invoices.any (fun i => decide (i.invoice_number = inv'.invoice_number)) then
    (db1, none)
  else
    ({ db1 with invoices := db1.invoices ++ [inv'] }, some inv')

/-- C8 counterexample: the generator reuses numbers once the shared counter
exceeds four digits — `lpad(next_val::text, 4, '0')` truncates `'10000'` to
`'1000'`, so counters 1000 and 10000 on the same date produce the same invoice
number. -/
theorem C8_counterexample :
    generate_invoice_number "20250223" 1000 = generate_invoice_number "20250223" 10000 ∧
    (1000 : Nat) ≠ 10000 := by
  decide

/-- The decimal digit characters of `n`, most significant first (the digit list
that `Nat.repr` produces). -/
def natDigits (n : Nat) : List Char :=
  if h : n < 10 then [Nat.digitChar n]
  else natDigits (n / 10) ++ [Nat.digitChar (n % 10)]
decreasing_by
  exact Nat.div_lt_self (by omega) (by omega)

theorem toDigitsCore_eq (f : Nat) :
    ∀ n ds, n < 10 ^ (f + 1) →
      Nat.toDigitsCore 10 (f + 1) n ds = natDigits n ++ ds := by
  induction f with
  | zero =>
    intro n ds h
    have h10 : n < 10 := by simpa using h
    unfold Nat.toDigitsCore
    rw [if_pos (Nat.div_eq_of_lt h10)]
    unfold natDigits
    rw [dif_pos h10, Nat.mod_eq_of_lt h10]
    rfl
  | succ f ih =>
    intro n ds h
    by_cases h10 : n < 10
    · unfold Nat.toDigitsCore
      rw [if_pos (Nat.div_eq_of_lt h10)]
      unfold natDigits
      rw [dif_pos h10, Nat.mod_eq_of_lt h10]
      rfl
    · have hne : ¬ n / 10 = 0 := by
        intro hc
        exact h10 ((Nat.div_eq_zero_iff (by omega)).mp hc)
      unfold Nat.toDigitsCore
      rw [if_neg hne]
      have hdiv : n / 10 < 10 ^ (f + 1) := by
        rw [Nat.div_lt_iff_lt_mul (by omega)]
        calc n < 10 ^ (f + 1 + 1) := h
        _ = 10 ^ (f + 1) * 10 := by ring
      rw [ih (n / 10) (Nat.digitChar (n % 10) :: ds) hdiv]
      conv_rhs => rw [natDigits]
      rw [dif_neg h10]
      simp

theorem repr_eq_natDigits (n : Nat) : Nat.repr n = (natDigits n).asString := by
  unfold Nat.repr Nat.toDigits
  have h : n < 10 ^ (n + 1) :=
    lt_of_lt_of_le (Nat.lt_pow_self (by omega) n)
      (Nat.pow_le_pow_right (by omega) (Nat.le_succ n))
  rw [toDigitsCore_eq n n [] h, List.append_nil]

theorem natDigits_length_le (f : Nat) :
    ∀ n, n < 10 ^ (f + 1) → (natDigits n).length ≤ f + 1 := by
  induction f with
  | zero =>
    intro n h
    have h10 : n < 10 := by simpa using h
    unfold natDigits
    rw [dif_pos h10]
    simp
  | succ f ih =>
    intro n h
    by_cases h10 : n < 10
    · unfold natDigits
      rw [dif_pos h10]
      simp
    · unfold natDigits
      rw [dif_neg h10]
      have hdiv : n / 10 < 10 ^ (f + 1) := by
        rw [Nat.div_lt_iff_lt_mul (by omega)]
        calc n < 10 ^ (f + 1 + 1) := h
        _ = 10 ^ (f + 1) * 10 := by ring
      have := ih (n / 10) hdiv
      simp only [List.length_append, List.length_cons, List.length_nil]
      omega

/-- Decode a list of decimal digit characters, most significant first. -/
def decodeDigits (l : List Char) : Nat :=
  l.foldl (fun a c => 10 * a + (c.toNat - 48)) 0

theorem digitChar_toNat : ∀ d, d < 10 → (Nat.digitChar d).toNat - 48 = d := by
  decide

theorem foldl_natDigits (n : Nat) :
    ∀ a, List.foldl (fun a c => 10 * a + (c.toNat - 48)) a (natDigits n)
      = a * 10 ^ (natDigits n).length + n := by
  induction n using Nat.strong_induction_on with
  | _ n ih =>
    intro a
    by_cases h10 : n < 10
    · unfold natDigits
      rw [dif_pos h10]
      simp [digitChar_toNat n h10]
      ring
    · unfold natDigits
      rw [dif_neg h10]
      rw [List.foldl_append]
      rw [ih (n / 10) (Nat.div_lt_self (by omega) (by omega)) a]
      simp only [List.foldl_cons, List.foldl_nil, List.length_append, List.length_cons,
        List.length_nil]
      rw [digitChar_toNat (n % 10) (Nat.mod_lt n (by omega))]
      have hmod : 10 * (n / 10) + n % 10 = n := by
        have := Nat.div_add_mod n 10
        omega
      ring_nf
      omega

theorem decodeDigits_natDigits (n : Nat) : decodeDigits (natDigits n) = n := by
  unfold decodeDigits
  rw [foldl_natDigits n 0]
  simp

theorem foldl_replicate_zero (k : Nat) :
    List.foldl (fun a c => 10 * a + (c.toNat - 48)) 0 (List.replicate k '0') = 0 := by
  induction k with
  | zero => rfl
  | succ k ih =>
    rw [List.replicate_succ, List.foldl_cons]
    simpa using ih

theorem decodeDigits_pad (k : Nat) (l : List Char) :
    decodeDigits (List.replicate k '0' ++ l) = decodeDigits l := by
  unfold decodeDigits
  rw [List.foldl_append, foldl_replicate_zero]

theorem toList_asString (l : List Char) : (List.asString l).toList = l := rfl

theorem lpad_toList_of_le {s : String} {len : Nat} {c : Char} (h : s.length ≤ len) :
    (lpad s len c).toList = List.replicate (len - s.length) c ++ s.toList := by
  unfold lpad
  by_cases he : len ≤ s.length
  · have hlen : s.length = len := le_antisymm h he
    rw [if_pos he, toList_asString]
    have : s.toList.length = len := hlen
    rw [List.take_of_length_le (le_of_eq this)]
    simp [hlen]
  · rw [if_neg he, toList_asString]

theorem decode_lpad_repr (n : Nat) (h : n ≤ 9999) :
    decodeDigits ((lpad (Nat.repr n) 4 '0').toList) = n := by
  have hlen : (natDigits n).length ≤ 4 := natDigits_length_le 3 n (by omega)
  have hlen' : (Nat.repr n).length ≤ 4 := by
    rw [repr_eq_natDigits]
    exact hlen
  rw [lpad_toList_of_le hlen']
  rw [repr_eq_natDigits, toList_asString, decodeDigits_pad, decodeDigits_natDigits]

theorem toList_append (a b : String) : (a ++ b).toList = a.toList ++ b.toList :=
  String.data_append a b

/-- A list of invoice rows carries pairwise-distinct invoice numbers. -/
def numbersDistinct (invs : List Invoice) : Prop :=
  invs.Pairwise (fun a b => a.invoice_number ≠ b.invoice_number)

instance (invs : List Invoice) : Decidable (numbersDistinct invs) := by
  unfold numbersDistinct
  exact List.instDecidablePairwise invs

theorem create_invoice_row_distinct {db : DB} {d : String} {inv : Invoice}
    (hdist : numbersDistinct db.invoices) :
    numbersDistinct (create_invoice_row db d inv).1.invoices := by
  simp only [create_invoice_row]
  split
  · exact hdist
  · next hany =>
    unfold numbersDistinct
    rw [List.pairwise_append]
    refine ⟨hdist, List.pairwise_singleton _ _, ?_⟩
    intro a ha b hb
    rw [List.mem_singleton] at hb
    subst hb
    intro hc
    apply hany
    rw [List.any_eq_true]
    exact ⟨a, ha, by simp [hc]⟩

theorem lpad_length_of_le {s : String} {len : Nat} {c : Char} (h : s.length ≤ len) :
    (lpad s len c).length = len := by
  have h1 : (lpad s len c).length = ((lpad s len c).toList).length := rfl
  rw [h1, lpad_toList_of_le h, List.length_append, List.length_replicate]
  have h2 : s.toList.length = s.length := rfl
  omega

/-- C8 amended: every generated invoice number has the shape
`INV-<YYYYMMDD>-<4 characters>`, where for counter values up to 9999 the four
characters are the zero-padded decimal counter (they decode back to it), so
distinct counters up to 9999 on one date give distinct numbers; the counter is
one shared sequence that advances by exactly one on every creation attempt,
succeeding or not; and the UNIQUE constraint on `invoices.invoice_number` keeps
the stored numbers pairwise distinct, rejecting an insert that would duplicate
one (which `lpad` truncation makes possible once the counter exceeds 9999). -/
theorem C8_invoice_number_properties (d : String) (n m : Nat) (db : DB) (inv : Invoice)
    (hn : n ≤ 9999) (hm : m ≤ 9999) (hdist : numbersDistinct db.invoices) :
    (lpad (Nat.repr n) 4 '0').length = 4 ∧
    decodeDigits ((lpad (Nat.repr n) 4 '0').toList) = n ∧
    (generate_invoice_number d n = generate_invoice_number d m → n = m) ∧
    (create_invoice_row db d inv).1.invoice_number_seq = db.invoice_number_seq + 1 ∧
    numbersDistinct (create_invoice_row db d inv).1.invoices := by
  have hlenn : (Nat.repr n).length ≤ 4 := by
    rw [repr_eq_natDigits]
    exact natDigits_length_le 3 n (by omega)
  refine ⟨lpad_length_of_le hlenn, decode_lpad_repr n hn, ?_, ?_, create_invoice_row_distinct hdist⟩
  · intro heq
    have h1 := congrArg String.toList heq
    unfold generate_invoice_number at h1
    rw [toList_append, toList_append, toList_append, toList_append, toList_append,
      toList_append] at h1
    simp only [List.append_assoc] at h1
    have h2 := List.append_cancel_left (List.append_cancel_left
      (List.append_cancel_left h1))
    have h3 := congrArg decodeDigits h2
    rw [decode_lpad_repr n hn, decode_lpad_repr m hm] at h3
    exact h3
  · simp only [create_invoice_row]
    split
    · rfl
    · rfl

/-- Witness for C8 at concrete counters 16 and 9999 and a concrete database. -/
theorem C8_invoice_number_properties_witness :
    (16 : Nat) ≤ 9999 ∧ numbersDistinct dbOver.invoices ∧
    ((lpad (Nat.repr 16) 4 '0').length = 4 ∧
     decodeDigits ((lpad (Nat.repr 16) 4 '0').toList) = 16 ∧
     (generate_invoice_number "20250223" 16 = generate_invoice_number "20250223" 9999 →
       (16 : Nat) = 9999) ∧
     (create_invoice_row dbOver "20250223" invoice1).1.invoice_number_seq =
       dbOver.invoice_number_seq + 1 ∧
     numbersDistinct (create_invoice_row dbOver "20250223" invoice1).1.invoices) :=
  ⟨by decide, by decide,
    C8_invoice_number_properties "20250223" 16 9999 dbOver invoice1 (by decide) (by decide)
      (by decide)⟩

/-- An item draft composed in the create-invoice form. -/
structure ItemDraft where
  type : ItemType
  description : String
  amount : Rat
  reference_id : Option Nat
deriving DecidableEq

/-- Result record of the client `calculateTotals`. -/
structure CalcTotals where
  subtotal : Rat
  taxAmount : Rat
  total : Rat
deriving DecidableEq

/-- The client `calculateTotals` of `CreateInvoiceForm.tsx`: `subtotal` is the
sum of the drafted item amounts; when no tax is applied (checkbox off, no tax
selected, or the selected tax missing from the catalog) `taxAmount` is 0 and
`total = subtotal`; otherwise `taxAmount = subtotal * percentage / 100` (exact,
no rounding) and `total = subtotal + taxAmount`. -/
def calculateTotals (invoiceItems : List ItemDraft) (taxes : List TaxRecord)
    (applyTax : Bool) (selectedTaxId : Option Nat) : CalcTotals :=
  let subtotal := (invoiceItems.map (fun it => it.amount)).sum
  match applyTax, selectedTaxId with
  | true, some tid =>
    match taxes.find? (fun t => decide (t.id = tid)) with
    | some selectedTax =>
      let taxAmount := subtotal * selectedTax.percentage / 100
      { subtotal := subtotal, taxAmount := taxAmount, total := subtotal + taxAmount }
    | none => { subtotal := subtotal, taxAmount := 0, total := subtotal }
  | _, _ => { subtotal := subtotal, taxAmount := 0, total := subtotal }

/-- Which of the four network steps of `handleSubmit` succeed.  The code checks
the errors of the invoice insert and of the items insert (throwing on failure)
but never checks the results of the two source-status updates. -/
structure StepFlags where
  invoiceInsertOk : Bool
  itemsInsertOk : Bool
  utilitiesUpdateOk : Bool
  depositsUpdateOk : Bool
deriving DecidableEq

/-- Result of a `handleSubmit` run: the final database state plus whether
`onSuccess` fired. -/
structure SubmitResult where
  db : DB
  success : Bool
deriving DecidableEq

/-- `UPDATE <sources> SET status = 'invoiced' WHERE id IN ids`. -/
def flip_sources (recs : List SourceRecord) (ids : List Nat) : List SourceRecord :=
  recs.map (fun r => if r.id ∈ ids then { r with status := SourceStatus.invoiced } else r)

/-- The reference ids of drafted items of one type — the client filters
`item.type === t && item.reference_id` and maps to `reference_id`. -/
def draftRefIds (drafts : List ItemDraft) (t : ItemType) : List Nat :=
  (drafts.filter (fun d => decide (d.type = t ∧ d.reference_id ≠ none))).filterMap
    (fun d => d.reference_id)

/-- The invoice-item rows the client builds from the drafts: all rows carry the
created invoice's id and `status := 'active'`; row ids are consecutive from
`baseItemId`. -/
def draftRows (drafts : List ItemDraft) (iid baseItemId : Nat) : List InvoiceItem :=
  drafts.enum.map (fun p =>
    { id := baseItemId + p.1, invoice_id := iid, type := p.2.type,
      description := p.2.description, amount := p.2.amount,
      reference_id := p.2.reference_id, status := ItemStatus.active })

/-- Steps (3) and (4) of `handleSubmit`: flip the referenced utilities and
deposits to 'invoiced'.  Each update request is sent only when its id list is
non-empty, and a failed request is ignored (the client never checks the result),
so a failure here only skips the flip. -/
def applyFlips (db2 : DB) (utilityIds depositIds : List Nat) (flags : StepFlags) : DB :=
  let db3 :=
    if flags.utilitiesUpdateOk && decide (utilityIds ≠ []) then
      { db2 with utilities := flip_sources db2.utilities utilityIds }
    else db2
  if flags.depositsUpdateOk && decide (depositIds ≠ []) then
    { db3 with deposits := flip_sources db3.deposits depositIds }
  else db3

/-- The client `handleSubmit` of `CreateInvoiceForm.tsx`, a sequence of four
separate requests with no enclosing transaction: (1) insert the invoice with the
client-computed totals and status 'draft' (the database assigns the invoice
number); (2) insert all item rows with status 'active', each firing the totals
trigger; (3) flip the referenced utilities to 'invoiced'; (4) flip the
referenced deposits to 'invoiced'.  A failure at (1) or (2) throws, so later
steps do not run but earlier writes stay; failures of (3) and (4) are ignored
(their results are never checked) and `onSuccess` still fires. -/
def handleSubmit (db : DB) (taxes : List TaxRecord) (drafts : List ItemDraft)
    (applyTax : Bool) (selectedTaxId : Option Nat) (dateStr : String)
    (newInvoiceId owner baseItemId : Nat) (flags : StepFlags) : SubmitResult :=
  if drafts.isEmpty then { db := db, success := false }
  else
    let c := calculateTotals drafts taxes applyTax selectedTaxId
    if flags.invoiceInsertOk = false then { db := db, success := false }
    else
      match create_invoice_row db dateStr
        { id := newInvoiceId, owner_id := owner, invoice_number := "",
          subtotal := c.subtotal, tax_amount := c.taxAmount, total_amount := c.total,
          status := InvoiceStatus.draft } with
      | (db1, none) => { db := db1, success := false }
      | (db1, some inv) =>
        if flags.itemsInsertOk = false then { db := db1, success := false }
        else
          let db2 := (draftRows drafts inv.id baseItemId).foldl insert_invoice_item db1
          { db := applyFlips db2 (draftRefIds drafts ItemType.utility)
              (draftRefIds drafts ItemType.deposit) flags, success := true }

theorem calculateTotals_subtotal (drafts : List ItemDraft) (taxes : List TaxRecord)
    (applyTax : Bool) (sel : Option Nat) :
    (calculateTotals drafts taxes applyTax sel).subtotal =
      (drafts.map (fun d => d.amount)).sum := by
  unfold calculateTotals
  split
  · split
    · rfl
    · rfl
  · rfl

theorem calculateTotals_total (drafts : List ItemDraft) (taxes : List TaxRecord)
    (applyTax : Bool) (sel : Option Nat) :
    (calculateTotals drafts taxes applyTax sel).total =
      (calculateTotals drafts taxes applyTax sel).subtotal +
        (calculateTotals drafts taxes applyTax sel).taxAmount := by
  unfold calculateTotals
  split
  · split
    · rfl
    · exact (add_zero _).symm
  · exact (add_zero _).symm

theorem calculateTotals_tax_found {drafts : List ItemDraft} {taxes : List TaxRecord}
    {tid : Nat} {t : TaxRecord}
    (hfind : taxes.find? (fun x => decide (x.id = tid)) = some t) :
    (calculateTotals drafts taxes true (some tid)).taxAmount =
      (drafts.map (fun d => d.amount)).sum * t.percentage / 100 := by
  unfold calculateTotals
  simp only [hfind]

theorem calculateTotals_tax_off (drafts : List ItemDraft) (taxes : List TaxRecord)
    (sel : Option Nat) :
    (calculateTotals drafts taxes false sel).taxAmount = 0 := rfl

/-- Test fixture: a 16% tax catalog entry. -/
def taxVAT : TaxRecord := { id := 9, name := "VAT", percentage := 16 }

/-- Test fixture: a 2% tax catalog entry. -/
def taxLevy : TaxRecord := { id := 8, name := "Levy", percentage := 2 }

/-- Test fixture: a 1000 rent draft. -/
def draftRent : ItemDraft :=
  { type := ItemType.rent, description := "Monthly Rent", amount := 1000,
    reference_id := none }

/-- Test fixture: a 150 water-utility draft referencing saved utility record 7. -/
def draftWater : ItemDraft :=
  { type := ItemType.utility, description := "Water - 2/2025", amount := 150,
    reference_id := some 7 }

/-- Test fixture: an empty database holding one saved utility record. -/
def dbStart : DB :=
  { invoices := [], invoice_items := [], payments := [],
    utilities := [{ id := 7, amount := 150, status := SourceStatus.saved }],
    deposits := [], invoice_number_seq := 0 }

/-- Test fixture: all four network steps succeed. -/
def allOk : StepFlags :=
  { invoiceInsertOk := true, itemsInsertOk := true, utilitiesUpdateOk := true,
    depositsUpdateOk := true }

/-- Test fixture: a single 25 draft. -/
def draftSmall : ItemDraft :=
  { type := ItemType.other, description := "x", amount := 25, reference_id := none }

/-- Test fixture: the items insert fails, everything else succeeds. -/
def flagsItemsFail : StepFlags :=
  { invoiceInsertOk := true, itemsInsertOk := false, utilitiesUpdateOk := true,
    depositsUpdateOk := true }

/-- Test fixture: the utilities update fails, everything else succeeds. -/
def flagsUtilFail : StepFlags :=
  { invoiceInsertOk := true, itemsInsertOk := true, utilitiesUpdateOk := false,
    depositsUpdateOk := true }

/-- C3 counterexample: with a single item of 25 and a 2% tax the client stores
`taxAmount = 1/2` exactly — `calculateTotals` performs no rounding — while the
claimed `round(subtotal × tax_percentage / 100)` is 1. -/
theorem C3_counterexample :
    (calculateTotals [draftSmall] [taxLevy] true (some 8)).taxAmount = 1/2 ∧
    (round ((25:Rat) * 2 / 100) : ℤ) = 1 ∧
    ¬ ((1:Rat)/2 = (1:Rat)) := by
  refine ⟨by decide, ?_, by decide⟩
  rw [round_eq]
  norm_num

/-- C3 amended: create_invoice computes subtotal as the sum of all item-draft
amounts, tax_amount as exactly subtotal × tax_percentage / 100 (no rounding)
when a tax is selected and 0 otherwise, total_amount as subtotal + tax_amount,
and persists the invoice with status 'draft'; for items [{rent,1000},{water,150}]
with 16% tax this yields subtotal 1150, tax_amount 184, total 1334 (rounded and
unrounded coincide on this example). -/
theorem C3_create_invoice_totals (drafts : List ItemDraft) (taxes : List TaxRecord)
    (tid : Nat) (t : TaxRecord) (sel : Option Nat)
    (hfind : taxes.find? (fun x => decide (x.id = tid)) = some t) :
    (calculateTotals drafts taxes true (some tid)).subtotal
        = (drafts.map (fun d => d.amount)).sum ∧
    (calculateTotals drafts taxes true (some tid)).taxAmount
        = (drafts.map (fun d => d.amount)).sum * t.percentage / 100 ∧
    (calculateTotals drafts taxes false sel).taxAmount = 0 ∧
    (calculateTotals drafts taxes true (some tid)).total
        = (calculateTotals drafts taxes true (some tid)).subtotal
          + (calculateTotals drafts taxes true (some tid)).taxAmount ∧
    (handleSubmit dbStart [taxVAT] [draftRent, draftWater] true (some 9) "20250223"
        1 5 10 allOk).success = true ∧
    (handleSubmit dbStart [taxVAT] [draftRent, draftWater] true (some 9) "20250223"
        1 5 10 allOk).db.invoices =
      [{ id := 1, owner_id := 5, invoice_number := "INV-20250223-0001",
         subtotal := 1150, tax_amount := 184, total_amount := 1334,
         status := InvoiceStatus.draft }] :=
  ⟨calculateTotals_subtotal drafts taxes true (some tid),
   calculateTotals_tax_found hfind,
   calculateTotals_tax_off drafts taxes sel,
   calculateTotals_total drafts taxes true (some tid),
   by decide, by decide⟩

/-- Witness for C3 at the concrete two-item draft list and the 16% tax. -/
theorem C3_create_invoice_totals_witness :
    [taxVAT].find? (fun x => decide (x.id = 9)) = some taxVAT ∧
    (calculateTotals [draftRent, draftWater] [taxVAT] true (some 9)).taxAmount
      = ([draftRent, draftWater].map (fun d => d.amount)).sum * taxVAT.percentage / 100 :=
  ⟨by decide,
   (C3_create_invoice_totals [draftRent, draftWater] [taxVAT] 9 taxVAT none
     (by decide)).2.1⟩

/-- C4: invoice creation is not atomic and does not guarantee the source flip.
First run: the items insert fails after the invoice insert succeeded — the
invoice row stays persisted with no items (a partial invoice remains) and no
source was flipped (items persist before any flip).  Second run: the utilities
update fails — creation still reports success while the referenced utility
record keeps status 'saved' instead of 'invoiced'. -/
theorem C4_creation_not_atomic :
    ((handleSubmit dbStart [taxVAT] [draftRent, draftWater] true (some 9) "20250223"
        1 5 10 flagsItemsFail).success = false ∧
     (handleSubmit dbStart [taxVAT] [draftRent, draftWater] true (some 9) "20250223"
        1 5 10 flagsItemsFail).db.invoices ≠ [] ∧
     (handleSubmit dbStart [taxVAT] [draftRent, draftWater] true (some 9) "20250223"
        1 5 10 flagsItemsFail).db.invoice_items = [] ∧
     (handleSubmit dbStart [taxVAT] [draftRent, draftWater] true (some 9) "20250223"
        1 5 10 flagsItemsFail).db.utilities =
       [{ id := 7, amount := 150, status := SourceStatus.saved }]) ∧
    ((handleSubmit dbStart [taxVAT] [draftRent, draftWater] true (some 9) "20250223"
        1 5 10 flagsUtilFail).success = true ∧
     (handleSubmit dbStart [taxVAT] [draftRent, draftWater] true (some 9) "20250223"
        1 5 10 flagsUtilFail).db.utilities =
       [{ id := 7, amount := 150, status := SourceStatus.saved }]) := by
  decide

theorem applyFlips_invoices (db2 : DB) (u d : List Nat) (flags : StepFlags) :
    (applyFlips db2 u d flags).invoices = db2.invoices := by
  simp only [applyFlips]
  split
  · split <;> rfl
  · split <;> rfl

theorem applyFlips_invoice_items (db2 : DB) (u d : List Nat) (flags : StepFlags) :
    (applyFlips db2 u d flags).invoice_items = db2.invoice_items := by
  simp only [applyFlips]
  split
  · split <;> rfl
  · split <;> rfl

theorem create_invoice_row_some {db : DB} {d : String} {inv inv' : Invoice} {db1 : DB}
    (h : create_invoice_row db d inv = (db1, some inv')) :
    inv'.id = inv.id ∧ inv'.subtotal = inv.subtotal ∧ inv'.tax_amount = inv.tax_amount ∧
    inv'.total_amount = inv.total_amount ∧ inv'.status = inv.status ∧
    db1.invoices = db.invoices ++ [inv'] ∧ db1.invoice_items = db.invoice_items := by
  simp only [create_invoice_row] at h
  split at h
  · exact absurd (congrArg Prod.snd h) (by simp)
  · have h1 := congrArg Prod.fst h
    have h2 := congrArg Prod.snd h
    simp only at h1 h2
    injection h2 with h2
    subst h2
    subst h1
    exact ⟨rfl, rfl, rfl, rfl, rfl, rfl, rfl⟩

theorem foldl_insert_items (rows : List InvoiceItem) (db : DB) :
    (rows.foldl insert_invoice_item db).invoice_items = db.invoice_items ++ rows := by
  induction rows generalizing db with
  | nil => simp
  | cons r rest ih =>
    rw [List.foldl_cons, ih]
    have h : (insert_invoice_item db r).invoice_items = db.invoice_items ++ [r] := rfl
    rw [h]
    simp

theorem foldl_insert_totalsOk (rows : List InvoiceItem) (db : DB) (iid : Nat)
    (hall : ∀ r ∈ rows, r.invoice_id = iid) (hne : rows ≠ []) :
    ∀ inv ∈ (rows.foldl insert_invoice_item db).invoices, inv.id = iid →
      totalsOk (rows.foldl insert_invoice_item db).invoice_items inv := by
  induction rows generalizing db with
  | nil => exact absurd rfl hne
  | cons r rest ih =>
    intro inv hm hid
    by_cases hrest : rest = []
    · subst hrest
      simp only [List.foldl_cons, List.foldl_nil] at hm ⊢
      unfold insert_invoice_item at hm ⊢
      have hr : r.invoice_id = iid := hall r (by simp)
      rw [invoice_items_update_invoice_totals]
      rcases mem_invoices_update_invoice_totals hm with ⟨_, hok⟩ | ⟨hne', _⟩
      · exact hok
      · rw [hr] at hne'
        exact absurd hid hne'
    · simp only [List.foldl_cons] at hm ⊢
      exact ih (insert_invoice_item db r)
        (fun x hx => hall x (List.mem_cons_of_mem _ hx)) hrest inv hm hid

theorem invoices_pairs_update (db : DB) (iid : Nat) :
    ((update_invoice_totals db iid).invoices).map (fun inv => (inv.id, inv.tax_amount)) =
      db.invoices.map (fun inv => (inv.id, inv.tax_amount)) := by
  unfold update_invoice_totals
  simp only [List.map_map]
  refine List.map_congr_left ?_
  intro a _
  by_cases h : a.id = iid <;> simp [h, Function.comp]

theorem invoices_pairs_foldl_insert (rows : List InvoiceItem) (db : DB) :
    ((rows.foldl insert_invoice_item db).invoices).map (fun inv => (inv.id, inv.tax_amount)) =
      db.invoices.map (fun inv => (inv.id, inv.tax_amount)) := by
  induction rows generalizing db with
  | nil => rfl
  | cons r rest ih =>
    rw [List.foldl_cons, ih]
    exact invoices_pairs_update _ _

theorem draftRows_amounts (drafts : List ItemDraft) (iid b : Nat) :
    (draftRows drafts iid b).map (fun it => it.amount) = drafts.map (fun d => d.amount) := by
  unfold draftRows
  rw [List.map_map]
  have h1 : ∀ p ∈ drafts.enum,
      ((fun it => it.amount) ∘ (fun p : Nat × ItemDraft =>
        ({ id := b + p.1, invoice_id := iid, type := p.2.type,
           description := p.2.description, amount := p.2.amount,
           reference_id := p.2.reference_id, status := ItemStatus.active } : InvoiceItem))) p
        = ((fun d => d.amount) ∘ Prod.snd) p := fun p _ => rfl
  rw [List.map_congr_left h1, ← List.map_map, List.enum_map_snd]

theorem draftRows_fields (drafts : List ItemDraft) (iid b : Nat) :
    ∀ it ∈ draftRows drafts iid b, it.invoice_id = iid ∧ it.status = ItemStatus.active := by
  intro it hm
  unfold draftRows at hm
  rw [List.mem_map] at hm
  obtain ⟨p, _, rfl⟩ := hm
  exact ⟨rfl, rfl⟩

theorem draftRows_ne_nil {drafts : List ItemDraft} (h : drafts ≠ []) (iid b : Nat) :
    draftRows drafts iid b ≠ [] := by
  unfold draftRows
  rw [Ne, List.map_eq_nil_iff, List.enum_eq_nil]
  exact h

theorem activeSubtotal_append_rows (items rows : List InvoiceItem) (iid : Nat)
    (hfresh : ∀ it ∈ items, it.invoice_id ≠ iid)
    (hrows : ∀ r ∈ rows, r.invoice_id = iid ∧ r.status = ItemStatus.active) :
    activeSubtotal (items ++ rows) iid = (rows.map (fun r => r.amount)).sum := by
  unfold activeSubtotal activeItems
  rw [List.filter_append]
  have h1 : items.filter (fun it =>
      decide (it.invoice_id = iid ∧ it.status = ItemStatus.active)) = [] :=
    List.filter_eq_nil_iff.mpr (fun a ha => by simp [hfresh a ha])
  have h2 : rows.filter (fun it =>
      decide (it.invoice_id = iid ∧ it.status = ItemStatus.active)) = rows :=
    List.filter_eq_self.mpr (fun a ha => by simp [(hrows a ha).1, (hrows a ha).2])
  rw [h1, h2]
  simp

theorem handleSubmit_success_eq {db : DB} {taxes : List TaxRecord}
    {drafts : List ItemDraft} {applyTax : Bool} {sel : Option Nat} {dateStr : String}
    {nid owner bid : Nat} {flags : StepFlags}
    (hsucc : (handleSubmit db taxes drafts applyTax sel dateStr nid owner bid
      flags).success = true) :
    ∃ db1 inv', create_invoice_row db dateStr
        { id := nid, owner_id := owner, invoice_number := "",
          subtotal := (calculateTotals drafts taxes applyTax sel).subtotal,
          tax_amount := (calculateTotals drafts taxes applyTax sel).taxAmount,
          total_amount := (calculateTotals drafts taxes applyTax sel).total,
          status := InvoiceStatus.draft } = (db1, some inv') ∧
      (handleSubmit db taxes drafts applyTax sel dateStr nid owner bid flags).db =
        applyFlips ((draftRows drafts inv'.id bid).foldl insert_invoice_item db1)
          (draftRefIds drafts ItemType.utility) (draftRefIds drafts ItemType.deposit)
          flags := by
  unfold handleSubmit at hsucc ⊢
  by_cases hemp : drafts.isEmpty = true
  · rw [if_pos hemp] at hsucc
    exact absurd hsucc (by simp)
  · rw [if_neg hemp] at hsucc ⊢
    by_cases hflag : flags.invoiceInsertOk = false
    · rw [if_pos hflag] at hsucc
      exact absurd hsucc (by simp)
    · rw [if_neg hflag] at hsucc ⊢
      rcases hcr : create_invoice_row db dateStr
        { id := nid, owner_id := owner, invoice_number := "",
          subtotal := (calculateTotals drafts taxes applyTax sel).subtotal,
          tax_amount := (calculateTotals drafts taxes applyTax sel).taxAmount,
          total_amount := (calculateTotals drafts taxes applyTax sel).total,
          status := InvoiceStatus.draft } with ⟨db1, oinv⟩
      rw [hcr] at hsucc
      cases oinv with
      | none => exact absurd hsucc (by simp)
      | some inv' =>
        have hsucc' : (if flags.itemsInsertOk = false then
            ({ db := db1, success := false } : SubmitResult)
          else
            { db := applyFlips ((draftRows drafts inv'.id bid).foldl insert_invoice_item
                db1) (draftRefIds drafts ItemType.utility)
                (draftRefIds drafts ItemType.deposit) flags,
              success := true }).success = true := hsucc
        by_cases hitems : flags.itemsInsertOk = false
        · rw [if_pos hitems] at hsucc'
          exact absurd hsucc' (by simp)
        · refine ⟨db1, inv', rfl, ?_⟩
          show (if flags.itemsInsertOk = false then
              ({ db := db1, success := false } : SubmitResult)
            else
              { db := applyFlips ((draftRows drafts inv'.id bid).foldl insert_invoice_item
                  db1) (draftRefIds drafts ItemType.utility)
                  (draftRefIds drafts ItemType.deposit) flags,
                success := true }).db
            = applyFlips ((draftRows drafts inv'.id bid).foldl insert_invoice_item db1)
                (draftRefIds drafts ItemType.utility)
                (draftRefIds drafts ItemType.deposit) flags
          rw [if_neg hitems]

/-- C10: on every successful invoice creation the client-computed `subtotal`,
`tax_amount` and `total_amount` stored with the invoice equal the values the
database trigger recomputes from the persisted items (all inserted with status
'active'): the new invoice row read back satisfies `subtotal = Σ(active items)`
(the trigger's value) and that value is the client subtotal, `tax_amount` is the
client tax amount, and `total_amount = subtotal + tax_amount` is the client
total, so the two redundant computations agree. -/
theorem C10_client_and_trigger_totals_agree (db : DB) (taxes : List TaxRecord)
    (drafts : List ItemDraft) (applyTax : Bool) (sel : Option Nat) (dateStr : String)
    (nid owner bid : Nat) (flags : StepFlags)
    (hne : drafts ≠ [])
    (hfresh_inv : ∀ inv ∈ db.invoices, inv.id ≠ nid)
    (hfresh_items : ∀ it ∈ db.invoice_items, it.invoice_id ≠ nid)
    (hsucc : (handleSubmit db taxes drafts applyTax sel dateStr nid owner bid
      flags).success = true) :
    ∀ inv ∈ (handleSubmit db taxes drafts applyTax sel dateStr nid owner bid
        flags).db.invoices, inv.id = nid →
      inv.subtotal = (calculateTotals drafts taxes applyTax sel).subtotal ∧
      inv.tax_amount = (calculateTotals drafts taxes applyTax sel).taxAmount ∧
      inv.total_amount = (calculateTotals drafts taxes applyTax sel).total ∧
      inv.subtotal = activeSubtotal ((handleSubmit db taxes drafts applyTax sel dateStr
        nid owner bid flags).db.invoice_items) nid ∧
      inv.total_amount = inv.subtotal + inv.tax_amount := by
  obtain ⟨db1, inv', hcr, hdbeq⟩ := handleSubmit_success_eq hsucc
  obtain ⟨hid', hsub', htax', htot', hst', hinvs1, hitems1⟩ := create_invoice_row_some hcr
  intro inv hm hid
  rw [hdbeq, applyFlips_invoices] at hm
  have hallrows : ∀ r ∈ draftRows drafts inv'.id bid, r.invoice_id = nid := by
    intro r hr
    rw [(draftRows_fields drafts inv'.id bid r hr).1, hid']
  have hok := foldl_insert_totalsOk (draftRows drafts inv'.id bid) db1 nid hallrows
    (draftRows_ne_nil hne _ _) inv hm hid
  obtain ⟨hsubA, htotA⟩ := hok
  have hitems_final : ((draftRows drafts inv'.id bid).foldl insert_invoice_item
      db1).invoice_items = db.invoice_items ++ draftRows drafts inv'.id bid := by
    rw [foldl_insert_items, hitems1]
  have hsub_val : activeSubtotal (((draftRows drafts inv'.id bid).foldl
      insert_invoice_item db1).invoice_items) nid
      = (calculateTotals drafts taxes applyTax sel).subtotal := by
    rw [hitems_final]
    rw [activeSubtotal_append_rows db.invoice_items (draftRows drafts inv'.id bid) nid
      hfresh_items (fun r hr => ⟨hallrows r hr, (draftRows_fields drafts inv'.id bid r hr).2⟩)]
    rw [draftRows_amounts, calculateTotals_subtotal]
  have hsub_eq : inv.subtotal = (calculateTotals drafts taxes applyTax sel).subtotal := by
    rw [hsubA, hid, hsub_val]
  have htax_eq : inv.tax_amount = (calculateTotals drafts taxes applyTax sel).taxAmount := by
    have hpair : (inv.id, inv.tax_amount) ∈ (((draftRows drafts inv'.id bid).foldl
        insert_invoice_item db1).invoices).map (fun i => (i.id, i.tax_amount)) :=
      List.mem_map.mpr ⟨inv, hm, rfl⟩
    rw [invoices_pairs_foldl_insert, hinvs1, List.map_append] at hpair
    rcases List.mem_append.mp hpair with hL | hR
    · obtain ⟨a, haMem, haEq⟩ := List.mem_map.mp hL
      have ha : a.id = inv.id := congrArg Prod.fst haEq
      exact absurd (ha.trans hid) (hfresh_inv a haMem)
    · rw [List.map_singleton, List.mem_singleton] at hR
      have htx : inv.tax_amount = inv'.tax_amount := congrArg Prod.snd hR
      rw [htx, htax']
  have htot_eq : inv.total_amount = (calculateTotals drafts taxes applyTax sel).total := by
    rw [htotA, hsub_eq, htax_eq, ← calculateTotals_total]
  refine ⟨hsub_eq, htax_eq, htot_eq, ?_, htotA⟩
  rw [hdbeq, applyFlips_invoice_items, ← hid]
  exact hsubA

/-- Witness for C10 at the concrete creation of invoice 1 from the two-item
draft list with 16% tax. -/
theorem C10_client_and_trigger_totals_agree_witness :
    ([draftRent, draftWater] : List ItemDraft) ≠ [] ∧
    (handleSubmit dbStart [taxVAT] [draftRent, draftWater] true (some 9) "20250223"
        1 5 10 allOk).success = true ∧
    ∀ inv ∈ (handleSubmit dbStart [taxVAT] [draftRent, draftWater] true (some 9)
        "20250223" 1 5 10 allOk).db.invoices, inv.id = 1 →
      inv.subtotal = (calculateTotals [draftRent, draftWater] [taxVAT] true
        (some 9)).subtotal ∧
      inv.tax_amount = (calculateTotals [draftRent, draftWater] [taxVAT] true
        (some 9)).taxAmount ∧
      inv.total_amount = (calculateTotals [draftRent, draftWater] [taxVAT] true
        (some 9)).total ∧
      inv.subtotal = activeSubtotal ((handleSubmit dbStart [taxVAT]
        [draftRent, draftWater] true (some 9) "20250223" 1 5 10
        allOk).db.invoice_items) 1 ∧
      inv.total_amount = inv.subtotal + inv.tax_amount :=
  ⟨by decide, by decide,
   C10_client_and_trigger_totals_agree dbStart [taxVAT] [draftRent, draftWater] true
     (some 9) "20250223" 1 5 10 allOk (by decide) (by decide) (by decide) (by decide)⟩

end PropertyMgmt
